import Mathlib

/-!
# Call-stack resolver (`src/app/callStack.cpp`)

A shallow embedding of `instrumentation::bfdResolver` and `get_call_stack`.

* Pointers (`void*`, `dli_fbase`) are natural numbers, `0` being `nullptr`;
  `intptr_t` arithmetic is signed 64-bit with wrap-around, `int` is signed 32-bit.
* The external libraries (`dladdr`, BFD, `__cxa_demangle`, `backtrace`,
  `unwind_nth_frame`, `utils::pretty_time`) are deterministic capabilities collected
  in `Env`, together with the two compile-time switches.
* The local `Dl_info info` is declared without initialiser and the return value of
  `dladdr` is dropped: when `dladdr` finds no object it writes nothing, and the code
  goes on with whatever the struct held (`Env.uninitialized_info`).
* The static members `s_bfds` and `s_bfd_initialized` form the `State`; the state also
  carries a ghost `trace` that records every external call in program order.
* A function that can loop forever takes `fuel` and returns `none` when it runs out;
  a thrown exception or a null dereference is an `Except.error`.
-/

namespace instrumentation

/-! ## Machine integers -/

/-- Value of a mathematical integer stored in a two's-complement `intptr_t` (64 bit). -/
def to_intptr (i : Int) : Int :=
  if i % 18446744073709551616 < 9223372036854775808 then i % 18446744073709551616
  else i % 18446744073709551616 - 18446744073709551616

/-- Value of a mathematical integer stored in a two's-complement `int` (32 bit). -/
def to_int (i : Int) : Int :=
  if i % 4294967296 < 2147483648 then i % 4294967296 else i % 4294967296 - 4294967296

/-- Conversion `static_cast<size_t>(i)` / `static_cast<uintptr_t>(i)` (64 bit, unsigned). -/
def to_size_t (i : Int) : Nat := (i % 18446744073709551616).toNat

/-- Largest size `std::vector<void*>::resize` accepts before throwing `std::length_error`. -/
def vector_max_size : Nat := 1152921504606846975

/-! ## Data model -/

/-- The record of `types.h`. -/
structure ResolvedFrame where
  timestamp : String
  callee_address : Option Nat
  callee_function_name : String
  caller_filename : String
  caller_line_number : Option Nat
  deriving DecidableEq, Repr

/-- The fields of `Dl_info` the resolver reads; `dli_fbase = 0` and `dli_sname = none`
are the null pointers. -/
structure Dl_info where
  dli_fname : String
  dli_fbase : Nat
  dli_sname : Option String
  deriving DecidableEq, Repr

/-- One `asection` of the section list: name, `vma` and `size` (both unsigned). -/
structure Section where
  name : String
  vma : Nat
  size : Nat
  deriving DecidableEq, Repr

/-- An opened `bfd`: the file it was opened from and its section list
(`abfd->sections`, linked through `next`; the empty list is the null head). -/
structure Bfd where
  filename : String
  sections : List Section
  deriving DecidableEq, Repr

/-- The struct `storedBfd`: handle, allocated symbol storage and load offset. -/
structure storedBfd where
  abfd : Bfd
  symbols : Nat
  offset : Int
  deriving DecidableEq, Repr

/-- What `bfd_find_nearest_line` writes through its out-parameters when it succeeds;
`file` and `func` are `const char*` and may be null. -/
structure NearestLine where
  file : Option String
  func : Option String
  line : Nat
  deriving DecidableEq, Repr

/-- Abnormal terminations: the exceptions the code can raise and the null dereference. -/
inductive Err where
  | runtime_error (msg : String)
  | length_error
  | out_of_range
  | null_deref
  deriving DecidableEq, Repr

/-- External calls, recorded in program order in the ghost trace. -/
inductive Event where
  | backtrace (size : Int)
  | bfd_init
  | dladdr (address : Nat)
  | bfd_openr (fname : String)
  | bfd_check_format (fname : String)
  | bfd_get_symtab_upper_bound (fname : String)
  | bfd_canonicalize_symtab (fbase : Nat)
  | bfd_find_nearest_line (fbase : Nat) (sec : Section) (offset : Int)
  | unwind_nth_frame (caller : Nat) (n : Nat)
  | pretty_time
  deriving DecidableEq, Repr

/-- The external capabilities and the build-time configuration.

The call `dladdr(address, &info)` is `some info` when it returns non-zero, having filled
the struct, and `none` when it returns 0, in which case the struct is left as it was.
The field `uninitialized_info` gives the indeterminate contents the local
`Dl_info info` has before the call for a given address (its pointers are taken to be
null or to point to a string; a wild pointer is not modelled). -/
structure Env where
  LOG_ADDR : Bool
  LOG_NOT_DEMANGLED : Bool
  s_argv0 : String
  dladdr : Nat → Option Dl_info
  uninitialized_info : Nat → Dl_info
  bfd_openr : String → Option Bfd
  bfd_get_symtab_upper_bound : Bfd → Int
  bfd_find_nearest_line : Bfd → Section → Int → Option NearestLine
  cxa_demangle : String → Int × Option String
  unwind_nth_frame : Nat → Nat → Nat
  pretty_time : Nat → String
  backtrace : Int → Int × (Nat → Nat)

/-- The static members of `bfdResolver` plus the ghost trace of external calls. -/
structure State where
  s_bfds : List (Nat × storedBfd)
  s_bfd_initialized : Bool
  trace : List Event
  deriving DecidableEq, Repr

/-- Process start: empty cache, backend not initialised, nothing called yet. -/
def State.init : State := { s_bfds := [], s_bfd_initialized := false, trace := [] }

/-- Record one external call. -/
def State.emit (st : State) (e : Event) : State := { st with trace := st.trace ++ [e] }

/-! ## `std::map` operations used on `s_bfds` -/

/-- The call `s_bfds.count(key)`. -/
def map_count (m : List (Nat × storedBfd)) (key : Nat) : Nat :=
  if (m.lookup key).isSome then 1 else 0

/-- The call `s_bfds.insert(make_pair(key, value))`: no effect when the key is present. -/
def map_insert (m : List (Nat × storedBfd)) (key : Nat) (value : storedBfd) :
    List (Nat × storedBfd) :=
  if (m.lookup key).isSome then m else (key, value) :: m

/-- The call `s_bfds.at(key)`; `none` stands for `std::out_of_range`. -/
def map_at (m : List (Nat × storedBfd)) (key : Nat) : Option storedBfd := m.lookup key

/-! ## The resolver -/

/-- The helper `demangle_cxa`: the input when the status is non-zero, else the demangled
name, or the empty string when the returned pointer is null. -/
def demangle_cxa (env : Env) (cxa : String) : String :=
  if (env.cxa_demangle cxa).1 ≠ 0 then cxa
  else
    match (env.cxa_demangle cxa).2 with
    | some realname => realname
    | none => ""

/-- The struct `info` after `Dl_info info; dladdr(address, &info);` (lines 147-148 and
190-191): what `dladdr` wrote when it found an object, the uninitialised contents
otherwise. -/
def dladdr_info (env : Env) (address : Nat) : Dl_info :=
  match env.dladdr address with
  | some info => info
  | none => env.uninitialized_info address

/-- The method `ensure_actual_executable`: replace `argv[0]` by `/proc/self/exe`. -/
def ensure_actual_executable (env : Env) (symbol_info : Dl_info) : Dl_info :=
  if symbol_info.dli_fname = env.s_argv0 then { symbol_info with dli_fname := "/proc/self/exe" }
  else symbol_info

/-- The method `ensure_bfd_loaded`. The mutation of `_info.dli_fname` is local to the
call: no caller reads `dli_fname` afterwards. -/
def ensure_bfd_loaded (env : Env) (info : Dl_info) (st : State) : Bool × State :=
  if map_count st.s_bfds info.dli_fbase = 0 then
    let info1 := ensure_actual_executable env info
    let st1 := st.emit (.bfd_openr info1.dli_fname)
    match env.bfd_openr info1.dli_fname with
    | none => (false, st1)
    | some abfd =>
      let st2 := st1.emit (.bfd_check_format info1.dli_fname)
      let storageNeeded := env.bfd_get_symtab_upper_bound abfd
      let st3 := st2.emit (.bfd_get_symtab_upper_bound info1.dli_fname)
      if storageNeeded < 0 then (false, st3)
      else
        let st4 := st3.emit (.bfd_canonicalize_symtab info1.dli_fbase)
        let newBfd : storedBfd :=
          { abfd := abfd, symbols := to_size_t storageNeeded, offset := to_intptr info1.dli_fbase }
        (true, { st4 with s_bfds := map_insert st4.s_bfds info1.dli_fbase newBfd })
  else (true, st)

/-- The method `check_bfd_initialized`. -/
def check_bfd_initialized (st : State) : State :=
  if !st.s_bfd_initialized then { st.emit .bfd_init with s_bfd_initialized := true } else st

/-- The `offset` computed at the top of each loop iteration (lines 167 and 205). -/
def candidate_offset (address : Nat) (relative : Bool) (load_offset : Int) (sec : Section) :
    Int :=
  to_intptr (to_intptr (to_intptr address - (if relative then load_offset else 0))
    - to_intptr sec.vma)

/-- The test `offset < 0 || static_cast<size_t>(offset) > section->size` negated: the
section is not skipped. -/
def in_range (offset : Int) (sec : Section) : Bool :=
  !(decide (offset < 0) || decide (to_size_t offset > sec.size))

/-- The `while` loop of `resolve_function_name` (lines 166-185); every iteration either
returns or moves to `section->next`, so the recursion is on the remaining list. -/
def walk_function_name (env : Env) (info : Dl_info) (currBfd : storedBfd) (relative : Bool)
    (address : Nat) : List Section → State → Except Err (Option String) × State
  | [], st => (.ok (some "<not sectioned address>"), st)
  | sec :: rest, st =>
    let offset := candidate_offset address relative currBfd.offset sec
    if !in_range offset sec then walk_function_name env info currBfd relative address rest st
    else
      let st1 := st.emit (.bfd_find_nearest_line info.dli_fbase sec offset)
      match env.bfd_find_nearest_line currBfd.abfd sec offset with
      | some found =>
        match found.func with
        | none => (.error .null_deref, st1)
        | some func =>
          let demangled := demangle_cxa env func
          (.ok (if demangled.isEmpty then none else some demangled), st1)
      | none =>
        (.ok (some (demangle_cxa env (match info.dli_sname with
                                       | some sname => sname
                                       | none => "") ++ " <bfd_error>")), st1)

/-- The method `resolve_function_name`. -/
def resolve_function_name (env : Env) (address : Nat) (st : State) :
    Except Err (Option String) × State :=
  let info := dladdr_info env address
  let st1 := st.emit (.dladdr address)
  if info.dli_fbase = 0 then (.ok (some "<address to object not found>"), st1)
  else if !env.LOG_NOT_DEMANGLED && info.dli_sname.isNone then (.ok none, st1)
  else
    match ensure_bfd_loaded env info st1 with
    | (false, st2) => (.ok (some "<could not open object file>"), st2)
    | (true, st2) =>
      match map_at st2.s_bfds info.dli_fbase with
      | none => (.error .out_of_range, st2)
      | some currBfd =>
        match currBfd.abfd.sections with
        | [] => (.error .null_deref, st2)
        | first :: rest =>
          let relative := decide (first.vma < to_size_t currBfd.offset)
          walk_function_name env info currBfd relative address (first :: rest) st2

/-- The `while` loop of `resolve_filename_and_line` (lines 204-229). When the lookup
fails and `dli_sname` is null the body falls through without advancing `section`, so
the loop is modelled with fuel: one unit per iteration, `none` when it runs out. -/
def walk_filename_and_line (env : Env) (info : Dl_info) (currBfd : storedBfd)
    (relative : Bool) (address : Nat) :
    Nat → List Section → State → Option (Except Err (String × Option Nat) × State)
  | 0, _, _ => none
  | _ + 1, [], st => some (.ok ("<not sectioned address>", none), st)
  | fuel + 1, sec :: rest, st =>
    let offset := candidate_offset address relative currBfd.offset sec
    if !in_range offset sec then
      walk_filename_and_line env info currBfd relative address fuel rest st
    else
      let st1 := st.emit (.bfd_find_nearest_line info.dli_fbase sec offset)
      match env.bfd_find_nearest_line currBfd.abfd sec offset with
      | some found =>
        match found.file with
        | some file => some (.ok (file, some found.line), st1)
        | none =>
          match found.func with
          | none => some (.error .null_deref, st1)
          | some func => some (.ok (demangle_cxa env func, none), st1)
      | none =>
        match info.dli_sname with
        | some sname => some (.ok (demangle_cxa env sname ++ " <bfd_error>", none), st1)
        | none => walk_filename_and_line env info currBfd relative address fuel (sec :: rest) st1

/-- The method `resolve_filename_and_line`. -/
def resolve_filename_and_line (env : Env) (fuel : Nat) (address : Nat) (st : State) :
    Option (Except Err (String × Option Nat) × State) :=
  let info := dladdr_info env address
  let st1 := st.emit (.dladdr address)
  if info.dli_fbase = 0 then some (.ok ("<caller address to object not found>", none), st1)
  else
    match ensure_bfd_loaded env info st1 with
    | (false, st2) => some (.ok ("<could not open caller object file>", none), st2)
    | (true, st2) =>
      match map_at st2.s_bfds info.dli_fbase with
      | none => some (.error .out_of_range, st2)
      | some currBfd =>
        match currBfd.abfd.sections with
        | [] => some (.error .null_deref, st2)
        | first :: rest =>
          let relative := decide (first.vma < to_size_t currBfd.offset)
          walk_filename_and_line env info currBfd relative address fuel (first :: rest) st2

/-- The method `bfdResolver::resolve`. The timestamp is the clock reading at the number
of external calls made so far. -/
def resolve (env : Env) (fuel : Nat) (callee_address caller_address : Nat) (st : State) :
    Option (Except Err (Option ResolvedFrame) × State) :=
  let st0 := check_bfd_initialized st
  match resolve_function_name env callee_address st0 with
  | (.error e, st1) => some (.error e, st1)
  | (.ok none, st1) => some (.ok none, st1)
  | (.ok (some func_name), st1) =>
    let caller := env.unwind_nth_frame caller_address 6
    let st2 := st1.emit (.unwind_nth_frame caller_address 6)
    match resolve_filename_and_line env fuel caller st2 with
    | none => none
    | some (.error e, st3) => some (.error e, st3)
    | some (.ok pair, st3) =>
      let st4 := st3.emit .pretty_time
      some (.ok (some
        { timestamp := env.pretty_time st3.trace.length
          callee_address := if env.LOG_ADDR then some callee_address else none
          callee_function_name := func_name
          caller_filename := pair.1
          caller_line_number := pair.2 }), st4)

/-- The `while (size_t(num) == stack.size())` loop of `get_call_stack` (lines 276-279):
double the buffer and call `backtrace` again. The result is the final `num` and buffer. -/
def grow_stack (env : Env) :
    Nat → Nat → Int → (Nat → Nat) → State → Option (Except Err (Int × (Nat → Nat)) × State)
  | 0, _, _, _, _ => none
  | fuel + 1, size, num, stack, st =>
    if to_size_t num = size then
      let size1 := (size * 2) % 18446744073709551616
      if size1 > vector_max_size then some (.error .length_error, st)
      else
        let r := env.backtrace (to_int size1)
        grow_stack env fuel size1 (to_int r.1) r.2 (st.emit (.backtrace (to_int size1)))
    else some (.ok (num, stack), st)

/-- The `for` loop of `get_call_stack` (lines 284-286) over the indices `i`. -/
def push_frames (env : Env) (fuel : Nat) (stack : Nat → Nat) :
    List Nat → List (Option ResolvedFrame) → State →
      Option (Except Err (List (Option ResolvedFrame)) × State)
  | [], res, st => some (.ok res, st)
  | i :: is, res, st =>
    match resolve env fuel (stack i) (stack (i - 1)) st with
    | none => none
    | some (.error e, st1) => some (.error e, st1)
    | some (.ok r, st1) => push_frames env fuel stack is (res ++ [r]) st1

/-- The function `get_call_stack`. -/
def get_call_stack (env : Env) (fuel : Nat) (st : State) :
    Option (Except Err (List (Option ResolvedFrame)) × State) :=
  let r := env.backtrace 1000
  let st1 := st.emit (.backtrace 1000)
  if to_int r.1 ≤ 0 then some (.error (.runtime_error "Callstack could not be built"), st1)
  else
    match grow_stack env fuel 1000 (to_int r.1) r.2 st1 with
    | none => none
    | some (.error e, st2) => some (.error e, st2)
    | some (.ok (num, stack), st2) =>
      if to_size_t num > vector_max_size then some (.error .length_error, st2)
      else push_frames env fuel stack (List.range' 1 (to_size_t num - 1)) [] st2

/-! ## Derived notions used in the statements -/

/-- Step 1 of the capture taken alone: the first `backtrace` call followed by the
buffer-growth retries (lines 272 and 276-279), giving the frame count that is left
after the retries together with the buffer. -/
def final_report (env : Env) (fuel : Nat) (st : State) :
    Option (Except Err (Int × (Nat → Nat)) × State) :=
  grow_stack env fuel 1000 (to_int (env.backtrace 1000).1) (env.backtrace 1000).2
    (st.emit (.backtrace 1000))

/-- Number of times the symbol table of the module at `fbase` was parsed. -/
def parse_count (fbase : Nat) (tr : List Event) : Nat :=
  tr.count (.bfd_canonicalize_symtab fbase)

/-- A sequence of `ensure_bfd_loaded` calls, one per query, threading the state. -/
def ensure_bfd_loaded_seq (env : Env) : List Dl_info → State → State
  | [], st => st
  | info :: rest, st => ensure_bfd_loaded_seq env rest (ensure_bfd_loaded env info st).2

/-! ## Concrete environments -/

/-- The initialisation section of the sample module. -/
def init_section : Section := { name := ".init", vma := 1050, size := 20 }

/-- The text section of the sample module. -/
def text_section : Section := { name := ".text", vma := 1100, size := 200 }

/-- A sample process: one module `demo` loaded at 1000 with sections `.init` and `.text`,
full debug data for `.text`, three frames on the stack; the stack slot of the local
`Dl_info` happens to be zero-filled. -/
def env_demo : Env where
  LOG_ADDR := true
  LOG_NOT_DEMANGLED := false
  s_argv0 := "demo"
  dladdr := fun a =>
    if 1000 ≤ a ∧ a < 2000 then
      some { dli_fname := "demo", dli_fbase := 1000, dli_sname := some "_Z2f3v" }
    else none
  uninitialized_info := fun _ => { dli_fname := "", dli_fbase := 0, dli_sname := none }
  bfd_openr := fun fname =>
    if fname = "/proc/self/exe" then
      some { filename := fname, sections := [init_section, text_section] }
    else none
  bfd_get_symtab_upper_bound := fun _ => 64
  bfd_find_nearest_line := fun _ sec offset =>
    if sec.name = ".text" then some { file := some "demo.cpp", func := some "_Z2f3v", line := offset.toNat }
    else none
  cxa_demangle := fun s => if s = "_Z2f3v" then (0, some "f3()") else (-2, none)
  unwind_nth_frame := fun caller _ => caller - 1
  pretty_time := fun _ => "12:00:00"
  backtrace := fun _ => (3, fun i => 1100 + 10 * i)

/-- The sample process built without `LOG_ADDR`. -/
def env_demo_no_addr : Env := { env_demo with LOG_ADDR := false }

/-- A process whose unwinder fills the initial buffer of 1000 frames and reports zero
frames on the retry with the doubled buffer. -/
def env_growth_zero : Env :=
  { env_demo with backtrace := fun size => if size = 1000 then (1000, fun i => i) else (0, fun i => i) }

/-- A process whose unwinder reports no frame at all. -/
def env_no_frames : Env := { env_demo with backtrace := fun _ => (0, fun _ => 0) }

/-- A stripped shared object: `dladdr` finds the module but no nearest symbol, and the
nearest-line lookup fails in every section. -/
def env_stripped : Env :=
  { env_demo with
    LOG_NOT_DEMANGLED := true
    dladdr := fun _ =>
      some { dli_fname := "libstripped.so", dli_fbase := 1000, dli_sname := none }
    bfd_openr := fun fname => some { filename := fname, sections := [text_section] }
    bfd_find_nearest_line := fun _ _ _ => none }

/-- A module whose debug data names the function at every offset `<not sectioned address>`,
a name the demangler rejects and hands back unchanged. -/
def env_placeholder_name : Env :=
  { env_demo with
    bfd_find_nearest_line := fun _ _ _ =>
      some { file := none, func := some "<not sectioned address>", line := 0 } }

/-- The sample process when the stack slot of the local `Dl_info` still holds what an
earlier `dladdr` call wrote for an address inside `demo`. -/
def env_leftover : Env :=
  { env_demo with
    uninitialized_info := fun _ =>
      { dli_fname := "demo", dli_fbase := 1000, dli_sname := some "_Z2f3v" } }

/-- The sample process when the stack slot of the local `Dl_info` holds a non-null base
address and a null symbol name. -/
def env_leftover_unnamed : Env :=
  { env_demo with
    uninitialized_info := fun _ => { dli_fname := "demo", dli_fbase := 1000, dli_sname := none } }

/-- The cache entry of the sample module. -/
def demo_stored : storedBfd :=
  { abfd := { filename := "/proc/self/exe",
              sections := [init_section, text_section] },
    symbols := 64, offset := 1000 }

/-- The frame `resolve` returns for callee 1150 and caller 1160 in the sample process. -/
def demo_frame : ResolvedFrame :=
  ResolvedFrame.mk "12:00:00" (some 1150) "f3()" "demo.cpp" (some 59)

/-- The external calls of `resolve_function_name` on address 1150 in the sample process,
preceded by the backend initialisation. -/
def demo_name_events : List Event :=
  [.bfd_init, .dladdr 1150, .bfd_openr "/proc/self/exe", .bfd_check_format "/proc/self/exe",
   .bfd_get_symtab_upper_bound "/proc/self/exe", .bfd_canonicalize_symtab 1000,
   .bfd_find_nearest_line 1000 text_section 50]

/-- The state after `resolve` of callee 1150 and caller 1160 in the sample process. -/
def demo_resolved_state : State :=
  State.mk [(1000, demo_stored)] true
    (demo_name_events ++ [.unwind_nth_frame 1160 6, .dladdr 1159,
      .bfd_find_nearest_line 1000 text_section 59, .pretty_time])

/-- Number of caller-unwinding calls (`unwind_nth_frame`) recorded in a trace. -/
def unwind_calls (tr : List Event) : Nat :=
  tr.countP (fun e => match e with
    | .unwind_nth_frame _ _ => true
    | _ => false)

/-- What `dladdr` reports for every address of the stripped shared object. -/
def stripped_info : Dl_info :=
  { dli_fname := "libstripped.so", dli_fbase := 1000, dli_sname := none }

/-- The cache entry of the stripped shared object. -/
def stripped_stored : storedBfd :=
  { abfd := { filename := "libstripped.so", sections := [text_section] },
    symbols := 64, offset := 1000 }

/-- The state in which the section walk for address 1149 of the stripped shared object
starts, from process start. -/
def stripped_loaded_state : State :=
  State.mk [(1000, stripped_stored)] false
    [.dladdr 1149, .bfd_openr "libstripped.so", .bfd_check_format "libstripped.so",
     .bfd_get_symtab_upper_bound "libstripped.so", .bfd_canonicalize_symtab 1000]

/-- The sequence `get_call_stack` returns in the sample process. -/
def demo_call_stack : List (Option ResolvedFrame) :=
  [some (ResolvedFrame.mk "12:00:00" (some 1110) "f3()" "<not sectioned address>" none),
   some (ResolvedFrame.mk "12:00:00" (some 1120) "f3()" "demo.cpp" (some 9))]

/-- The state of the sample process after `get_call_stack`. -/
def demo_call_stack_state : State :=
  State.mk [(1000, demo_stored)] true
    [.backtrace 1000, .bfd_init, .dladdr 1110, .bfd_openr "/proc/self/exe",
     .bfd_check_format "/proc/self/exe", .bfd_get_symtab_upper_bound "/proc/self/exe",
     .bfd_canonicalize_symtab 1000, .bfd_find_nearest_line 1000 text_section 10,
     .unwind_nth_frame 1100 6, .dladdr 1099, .pretty_time, .dladdr 1120,
     .bfd_find_nearest_line 1000 text_section 20, .unwind_nth_frame 1110 6, .dladdr 1109,
     .bfd_find_nearest_line 1000 text_section 9, .pretty_time]

/-- The frame `resolve` returns for callee 1110 and caller 1100 in the stripped shared
object. -/
def stripped_first_frame : ResolvedFrame :=
  ResolvedFrame.mk "12:00:00" (some 1110) " <bfd_error>" "<not sectioned address>" none

/-- The state of the stripped process after `get_call_stack` has captured the stack and
resolved its first pair of frames. -/
def stripped_first_state : State :=
  State.mk [(1000, stripped_stored)] true
    [.backtrace 1000, .bfd_init, .dladdr 1110, .bfd_openr "libstripped.so",
     .bfd_check_format "libstripped.so", .bfd_get_symtab_upper_bound "libstripped.so",
     .bfd_canonicalize_symtab 1000, .bfd_find_nearest_line 1000 text_section 10,
     .unwind_nth_frame 1100 6, .dladdr 1099, .pretty_time]

/-! # Theorems -/

/-! ## Basic facts -/

theorem emit_s_bfds (st : State) (e : Event) : (st.emit e).s_bfds = st.s_bfds := rfl

theorem string_ne_empty_of_isEmpty_false (s : String) (h : s.isEmpty = false) : s ≠ "" := by
  intro hs
  subst hs
  simp [String.isEmpty] at h

theorem append_marker_ne_empty (s : String) : s ++ " <bfd_error>" ≠ "" := by
  intro h
  have h2 := congrArg String.length h
  rw [String.length_append] at h2
  have h3 : " <bfd_error>".length = 12 := by decide
  have h4 : "".length = 0 := by decide
  omega

/-- Every present name produced by the section walk of `resolve_function_name` is
non-empty. -/
theorem walk_function_name_ne_empty (env : Env) (info : Dl_info) (currBfd : storedBfd)
    (relative : Bool) (address : Nat) (secs : List Section) (st st' : State) (s : String)
    (h : walk_function_name env info currBfd relative address secs st = (.ok (some s), st')) :
    s ≠ "" := by
  induction secs generalizing st with
  | nil =>
    simp only [walk_function_name, Prod.mk.injEq, Except.ok.injEq, Option.some.injEq] at h
    rw [← h.1]; decide
  | cons sec rest ih =>
    simp only [walk_function_name] at h
    split at h
    · exact ih st h
    · split at h
      · split at h
        · simp at h
        · simp only [Prod.mk.injEq, Except.ok.injEq] at h
          have h1 := h.1
          split at h1
          · simp at h1
          · rename_i hne
            simp only [Option.some.injEq] at h1
            rw [← h1]
            exact string_ne_empty_of_isEmpty_false _ (by simpa using hne)
      · simp only [Prod.mk.injEq, Except.ok.injEq, Option.some.injEq] at h
        rw [← h.1]
        exact append_marker_ne_empty _

/-- Every present name returned by `resolve_function_name` is non-empty. -/
theorem resolve_function_name_ne_empty (env : Env) (address : Nat) (st st' : State)
    (s : String) (h : resolve_function_name env address st = (.ok (some s), st')) :
    s ≠ "" := by
  unfold resolve_function_name at h
  simp only at h
  split at h
  · simp only [Prod.mk.injEq, Except.ok.injEq, Option.some.injEq] at h
    rw [← h.1]; decide
  · split at h
    · simp at h
    · split at h
      · simp only [Prod.mk.injEq, Except.ok.injEq, Option.some.injEq] at h
        rw [← h.1]; decide
      · split at h
        · simp at h
        · split at h
          · simp at h
          · exact walk_function_name_ne_empty _ _ _ _ _ _ _ _ _ h

/-! ## `resolve_function_name`: early returns -/

/-- When the struct read after the `dladdr` call holds a null base address,
`resolve_function_name` returns the present string `"<address to object not found>"`,
for every setting of `LOG_NOT_DEMANGLED` and every symbol name in the struct; the only
effect is the `dladdr` call, so the module symbol cache is unchanged. -/
theorem resolve_function_name_null_base (env : Env) (address : Nat) (st : State)
    (h : (dladdr_info env address).dli_fbase = 0) :
    resolve_function_name env address st
        = (.ok (some "<address to object not found>"), st.emit (.dladdr address)) ∧
      (resolve_function_name env address st).2.s_bfds = st.s_bfds := by
  have h1 : resolve_function_name env address st
      = (.ok (some "<address to object not found>"), st.emit (.dladdr address)) := by
    simp [resolve_function_name, h]
  exact ⟨h1, by rw [h1]; rfl⟩

theorem resolve_function_name_null_base_witness :
    (dladdr_info env_demo 5).dli_fbase = 0 ∧
      resolve_function_name env_demo 5 State.init
        = (.ok (some "<address to object not found>"), State.mk [] false [.dladdr 5]) :=
  ⟨by decide, (resolve_function_name_null_base env_demo 5 State.init (by decide)).1⟩

/-- C3 (failing input): address 5 lies outside every module, so `dladdr` returns 0 and
writes nothing into the uninitialised `Dl_info`. When the stack slot still holds the
struct of an earlier call for module `demo`, `resolve_function_name` opens and caches
that module and returns `"<not sectioned address>"`; when the slot holds a non-null
base and a null symbol name, it returns absent. In neither case is the result
`"<address to object not found>"`. -/
theorem resolve_function_name_not_found_uninitialized :
    env_leftover.dladdr 5 = none ∧
    resolve_function_name env_leftover 5 State.init
      = (.ok (some "<not sectioned address>"),
          State.mk [(1000, demo_stored)] false
            [.dladdr 5, .bfd_openr "/proc/self/exe", .bfd_check_format "/proc/self/exe",
             .bfd_get_symtab_upper_bound "/proc/self/exe", .bfd_canonicalize_symtab 1000]) ∧
    env_leftover_unnamed.dladdr 5 = none ∧
    resolve_function_name env_leftover_unnamed 5 State.init
      = (.ok none, State.mk [] false [.dladdr 5]) :=
  ⟨by rfl, by rfl, by rfl, by rfl⟩

/-- C10: with `LOG_NOT_DEMANGLED` disabled, for an address whose module is found (the
struct filled by `dladdr` has a non-null base address) but for which the locator reports
no nearest symbol (null `dli_sname`), `resolve_function_name` returns absent; the only
external call made is `dladdr`, so no module image is opened and the module symbol cache
is unchanged. The hypotheses are on the struct as the code reads it, so they cover every
found module. -/
theorem resolve_function_name_unnamed_absent (env : Env) (address : Nat) (st : State)
    (hflag : env.LOG_NOT_DEMANGLED = false)
    (hmod : (dladdr_info env address).dli_fbase ≠ 0)
    (hname : (dladdr_info env address).dli_sname = none) :
    resolve_function_name env address st = (.ok none, st.emit (.dladdr address)) ∧
      (resolve_function_name env address st).2.s_bfds = st.s_bfds ∧
      (resolve_function_name env address st).2.trace = st.trace ++ [.dladdr address] := by
  have h1 : resolve_function_name env address st = (.ok none, st.emit (.dladdr address)) := by
    simp [resolve_function_name, hflag, hmod, hname]
  exact ⟨h1, by rw [h1]; rfl, by rw [h1]; rfl⟩

theorem resolve_function_name_unnamed_absent_witness :
    resolve_function_name { env_stripped with LOG_NOT_DEMANGLED := false } 1150 State.init
      = (.ok none, State.mk [] false [.dladdr 1150]) :=
  (resolve_function_name_unnamed_absent { env_stripped with LOG_NOT_DEMANGLED := false } 1150
    State.init rfl (by decide) rfl).1

/-! ## `resolve` -/

/-- The two ways `resolve` returns normally, in terms of its two sub-resolutions. -/
theorem resolve_cases (env : Env) (fuel callee caller : Nat) (st st' : State) :
    (resolve env fuel callee caller st = some (.ok none, st') ↔
        resolve_function_name env callee (check_bfd_initialized st) = (.ok none, st')) ∧
    (∀ frame : ResolvedFrame,
      resolve env fuel callee caller st = some (.ok (some frame), st') ↔
        ∃ name st1 file line st3,
          resolve_function_name env callee (check_bfd_initialized st)
            = (.ok (some name), st1) ∧
          resolve_filename_and_line env fuel (env.unwind_nth_frame caller 6)
            (st1.emit (.unwind_nth_frame caller 6)) = some (.ok (file, line), st3) ∧
          st' = st3.emit .pretty_time ∧
          frame = ResolvedFrame.mk (env.pretty_time st3.trace.length)
            (if env.LOG_ADDR then some callee else none) name file line) := by
  unfold resolve
  simp only
  rcases hr : resolve_function_name env callee (check_bfd_initialized st) with ⟨r, s1⟩
  rcases r with e | (_ | name)
  · simp
  · simp
  · dsimp only
    rcases hf : resolve_filename_and_line env fuel (env.unwind_nth_frame caller 6)
      (s1.emit (.unwind_nth_frame caller 6)) with _ | ⟨r2, s3⟩
    · refine ⟨by simp, fun frame => ⟨by simp, ?_⟩⟩
      rintro ⟨name1, s1a, file1, line1, s3a, h1, h2, -, -⟩
      simp only [Prod.mk.injEq, Except.ok.injEq, Option.some.injEq] at h1
      rw [← h1.2, hf] at h2
      simp at h2
    · rcases r2 with e | ⟨file, line⟩
      · refine ⟨by simp, fun frame => ⟨by simp, ?_⟩⟩
        rintro ⟨name1, s1a, file1, line1, s3a, h1, h2, -, -⟩
        simp only [Prod.mk.injEq, Except.ok.injEq, Option.some.injEq] at h1
        rw [← h1.2, hf] at h2
        simp at h2
      · refine ⟨by simp, fun frame => ⟨?_, ?_⟩⟩
        · intro h
          simp only [Option.some.injEq, Prod.mk.injEq, Except.ok.injEq] at h
          exact ⟨name, s1, file, line, s3, rfl, hf, h.2.symm, h.1.symm⟩
        · rintro ⟨name1, s1a, file1, line1, s3a, h1, h2, h3, h4⟩
          simp only [Prod.mk.injEq, Except.ok.injEq, Option.some.injEq] at h1
          rw [← h1.2, hf] at h2
          simp only [Option.some.injEq, Prod.mk.injEq, Except.ok.injEq] at h2
          obtain ⟨⟨hfile, hline⟩, hs3⟩ := h2
          subst hfile hline hs3
          rw [h3, h4, ← h1.1]

theorem unwind_calls_emit (st : State) (e : Event) :
    unwind_calls (st.emit e).trace = unwind_calls st.trace + unwind_calls [e] := by
  simp [unwind_calls, State.emit, List.countP_append]

theorem ensure_bfd_loaded_unwind_calls (env : Env) (info : Dl_info) (st : State) :
    unwind_calls (ensure_bfd_loaded env info st).2.trace = unwind_calls st.trace := by
  unfold ensure_bfd_loaded
  split
  · simp only
    split
    · rw [unwind_calls_emit]; rfl
    · split
      · simp only [unwind_calls_emit]; rfl
      · show unwind_calls (State.emit _ _).trace = _
        simp only [unwind_calls_emit]; rfl
  · rfl

theorem walk_function_name_unwind_calls (env : Env) (info : Dl_info) (currBfd : storedBfd)
    (relative : Bool) (address : Nat) (secs : List Section) (st : State) :
    unwind_calls (walk_function_name env info currBfd relative address secs st).2.trace
      = unwind_calls st.trace := by
  induction secs generalizing st with
  | nil => rfl
  | cons sec rest ih =>
    simp only [walk_function_name]
    split
    · exact ih st
    · split
      · split <;> (rw [unwind_calls_emit]; rfl)
      · rw [unwind_calls_emit]; rfl

/-- The function-name resolution never unwinds. -/
theorem resolve_function_name_unwind_calls (env : Env) (address : Nat) (st : State) :
    unwind_calls (resolve_function_name env address st).2.trace = unwind_calls st.trace := by
  have hd : unwind_calls (st.emit (.dladdr address)).trace = unwind_calls st.trace := by
    rw [unwind_calls_emit]; rfl
  have hl := ensure_bfd_loaded_unwind_calls env (dladdr_info env address) (st.emit (.dladdr address))
  unfold resolve_function_name
  simp only
  split
  · exact hd
  · split
    · exact hd
    · split
      · rename_i st2 heq
        rw [heq] at hl
        exact hl.trans hd
      · rename_i st2 heq
        rw [heq] at hl
        split
        · exact hl.trans hd
        · split
          · exact hl.trans hd
          · rw [walk_function_name_unwind_calls]
            exact hl.trans hd

theorem check_bfd_initialized_unwind_calls (st : State) :
    unwind_calls (check_bfd_initialized st).trace = unwind_calls st.trace := by
  unfold check_bfd_initialized
  split
  · show unwind_calls (State.emit _ _).trace = _
    rw [unwind_calls_emit]; rfl
  · rfl

/-- C5: a present `ResolvedFrame` returned by `resolve` has a non-empty
`callee_function_name`, for every callee and caller address, every state and every
behaviour of the locator, binary-data and demangling capabilities (an empty demangled
name makes the function-name resolution, hence the frame, absent). -/
theorem resolve_present_name_nonempty (env : Env) (fuel callee caller : Nat)
    (st st' : State) (frame : ResolvedFrame)
    (h : resolve env fuel callee caller st = some (.ok (some frame), st')) :
    frame.callee_function_name ≠ "" := by
  obtain ⟨name, st1, file, line, st3, h1, -, -, h4⟩ :=
    ((resolve_cases env fuel callee caller st st').2 frame).1 h
  rw [h4]
  exact resolve_function_name_ne_empty _ _ _ _ _ h1

theorem resolve_present_name_nonempty_witness :
    resolve env_demo 5 1150 1160 State.init = some (.ok (some demo_frame), demo_resolved_state) ∧
      demo_frame.callee_function_name ≠ "" :=
  ⟨by rfl, resolve_present_name_nonempty env_demo 5 1150 1160 State.init demo_resolved_state
    demo_frame (by rfl)⟩

/-- C7: for every present `ResolvedFrame` returned by `resolve(callee, caller)`: with
`LOG_ADDR` enabled `callee_address` is present and equal to the raw callee address passed
in; with `LOG_ADDR` disabled `callee_address` is absent. -/
theorem resolve_callee_address (env : Env) (fuel callee caller : Nat)
    (st st' : State) (frame : ResolvedFrame)
    (h : resolve env fuel callee caller st = some (.ok (some frame), st')) :
    (env.LOG_ADDR = true → frame.callee_address = some callee) ∧
      (env.LOG_ADDR = false → frame.callee_address = none) := by
  obtain ⟨name, st1, file, line, st3, -, -, -, h4⟩ :=
    ((resolve_cases env fuel callee caller st st').2 frame).1 h
  rw [h4]
  constructor <;> intro hl <;> simp [hl]

theorem resolve_callee_address_witness :
    (resolve env_demo 5 1150 1160 State.init = some (.ok (some demo_frame), demo_resolved_state) ∧
      demo_frame.callee_address = some 1150) ∧
    (resolve env_demo_no_addr 5 1150 1160 State.init
        = some (.ok (some { demo_frame with callee_address := none }), demo_resolved_state) ∧
      ({ demo_frame with callee_address := none } : ResolvedFrame).callee_address = none) :=
  ⟨⟨by rfl, (resolve_callee_address env_demo 5 1150 1160 State.init demo_resolved_state
      demo_frame (by rfl)).1 rfl⟩,
   ⟨by rfl, (resolve_callee_address env_demo_no_addr 5 1150 1160 State.init demo_resolved_state
      { demo_frame with callee_address := none } (by rfl)).2 rfl⟩⟩

/-- The returns of `resolve` in terms of its sub-resolutions: `resolve(callee, caller)`
returns absent exactly when
`resolve_function_name(callee)` (run after the backend initialisation check) is absent;
in that case its whole effect is that of the function-name resolution, so no caller
unwinding and no filename/line resolution is performed. Otherwise, whenever
`resolve_filename_and_line` returns a pair on the address derived by `unwind_nth_frame`,
`resolve` returns a present frame whose `callee_function_name` is the string returned by
`resolve_function_name(callee)` and whose `caller_filename` and `caller_line_number` are
that pair; every present frame arises this way. -/
theorem resolve_returns_absent_or_fields (env : Env) (fuel callee caller : Nat)
    (st st' : State) :
    (resolve env fuel callee caller st = some (.ok none, st') ↔
        resolve_function_name env callee (check_bfd_initialized st) = (.ok none, st')) ∧
    (resolve env fuel callee caller st = some (.ok none, st') →
        unwind_calls st'.trace = unwind_calls st.trace) ∧
    (∀ name st1 file line st3,
      resolve_function_name env callee (check_bfd_initialized st) = (.ok (some name), st1) →
      resolve_filename_and_line env fuel (env.unwind_nth_frame caller 6)
        (st1.emit (.unwind_nth_frame caller 6)) = some (.ok (file, line), st3) →
      ∃ frame, resolve env fuel callee caller st
            = some (.ok (some frame), st3.emit .pretty_time) ∧
          frame.callee_function_name = name ∧ frame.caller_filename = file ∧
          frame.caller_line_number = line) ∧
    (∀ frame, resolve env fuel callee caller st = some (.ok (some frame), st') →
      ∃ st1 st3,
        resolve_function_name env callee (check_bfd_initialized st)
          = (.ok (some frame.callee_function_name), st1) ∧
        resolve_filename_and_line env fuel (env.unwind_nth_frame caller 6)
          (st1.emit (.unwind_nth_frame caller 6))
          = some (.ok (frame.caller_filename, frame.caller_line_number), st3) ∧
        st' = st3.emit .pretty_time) := by
  refine ⟨(resolve_cases env fuel callee caller st st').1, ?_, ?_, ?_⟩
  · intro h
    have h1 := (resolve_cases env fuel callee caller st st').1.1 h
    have h2 := resolve_function_name_unwind_calls env callee (check_bfd_initialized st)
    rw [h1] at h2
    exact h2.trans (check_bfd_initialized_unwind_calls st)
  · intro name st1 file line st3 h1 h2
    exact ⟨_, ((resolve_cases env fuel callee caller st (st3.emit .pretty_time)).2 _).2
      ⟨name, st1, file, line, st3, h1, h2, rfl, rfl⟩, rfl, rfl, rfl⟩
  · intro frame h
    obtain ⟨name, st1, file, line, st3, h1, h2, h3, h4⟩ :=
      ((resolve_cases env fuel callee caller st st').2 frame).1 h
    subst h4
    exact ⟨st1, st3, h1, h2, h3⟩

theorem resolve_returns_absent_or_fields_witness :
    resolve env_demo 5 1150 1160 State.init = some (.ok (some demo_frame), demo_resolved_state) ∧
    (∃ st1 st3,
      resolve_function_name env_demo 1150 (check_bfd_initialized State.init)
        = (.ok (some "f3()"), st1) ∧
      resolve_filename_and_line env_demo 5 1159 (st1.emit (.unwind_nth_frame 1160 6))
        = some (.ok ("demo.cpp", some 59), st3) ∧
      demo_resolved_state = st3.emit .pretty_time) :=
  ⟨by rfl, (resolve_returns_absent_or_fields env_demo 5 1150 1160 State.init
    demo_resolved_state).2.2.2 demo_frame (by rfl)⟩

/-! ## The module symbol cache -/

theorem map_count_le_one (m : List (Nat × storedBfd)) (key : Nat) : map_count m key ≤ 1 := by
  unfold map_count; split <;> omega

theorem lookup_none_of_map_count (st : State) (key : Nat)
    (h0 : map_count st.s_bfds key = 0) : (List.lookup key st.s_bfds).isSome = false := by
  unfold map_count at h0
  split at h0
  · omega
  · exact Bool.eq_false_iff.2 ‹¬ _›

theorem lookup_cons_ne (m : List (Nat × storedBfd)) (b key : Nat) (v : storedBfd)
    (h : b ≠ key) : List.lookup b ((key, v) :: m) = List.lookup b m := by
  have hb2 : (b == key) = false := by simpa using h
  rw [List.lookup_cons, hb2]

theorem parse_count_single_ne (b c : Nat) (h : c ≠ b) :
    parse_count b [Event.bfd_canonicalize_symtab c] = 0 := by
  simp [parse_count, List.count_cons, h]

theorem parse_count_emit (b : Nat) (st : State) (e : Event) :
    parse_count b (st.emit e).trace = parse_count b st.trace + parse_count b [e] := by
  simp [parse_count, State.emit, List.count_append]

/-- A call for a base address that is already cached returns `true` and changes nothing:
no external call is made and the cache is untouched. -/
theorem ensure_bfd_loaded_cached (env : Env) (info : Dl_info) (st : State)
    (h : map_count st.s_bfds info.dli_fbase = 1) :
    ensure_bfd_loaded env info st = (true, st) := by
  unfold ensure_bfd_loaded
  rw [if_neg (by omega)]

theorem ensure_actual_executable_fbase (env : Env) (info : Dl_info) :
    (ensure_actual_executable env info).dli_fbase = info.dli_fbase := by
  unfold ensure_actual_executable; split <;> rfl

/-- One call keeps the parse count of every base address equal to its cache count. -/
theorem ensure_bfd_loaded_parse_inv (env : Env) (info : Dl_info) (st : State)
    (hinv : ∀ b, parse_count b st.trace = map_count st.s_bfds b) (b : Nat) :
    parse_count b (ensure_bfd_loaded env info st).2.trace
      = map_count (ensure_bfd_loaded env info st).2.s_bfds b := by
  unfold ensure_bfd_loaded
  split
  · rename_i h0
    simp only
    split
    · rw [parse_count_emit, emit_s_bfds, hinv]; rfl
    · split
      · simp only [parse_count_emit, emit_s_bfds, hinv]; rfl
      · show parse_count b (State.emit _ _).trace = map_count (map_insert _ _ _) b
        simp only [parse_count_emit, emit_s_bfds, hinv, ensure_actual_executable_fbase]
        have hnone := lookup_none_of_map_count st info.dli_fbase h0
        unfold map_insert
        rw [hnone]
        simp only [Bool.false_eq_true, if_false]
        by_cases hb : b = info.dli_fbase
        · subst hb
          simp [map_count, parse_count, hnone, List.lookup_cons]
        · rw [parse_count_single_ne b info.dli_fbase (fun h => hb h.symm)]
          simp only [map_count, lookup_cons_ne _ _ _ _ hb]
          simp [parse_count]
  · exact hinv b

/-- An entry of the cache is never removed or replaced by a later call. -/
theorem ensure_bfd_loaded_keeps (env : Env) (info : Dl_info) (st : State) (b : Nat)
    (h : map_count st.s_bfds b = 1) :
    map_at (ensure_bfd_loaded env info st).2.s_bfds b = map_at st.s_bfds b := by
  unfold ensure_bfd_loaded
  split
  · rename_i h0
    simp only
    split
    · rfl
    · split
      · rfl
      · show map_at (map_insert _ _ _) b = _
        simp only [emit_s_bfds, ensure_actual_executable_fbase]
        have hnone := lookup_none_of_map_count st info.dli_fbase h0
        have hb : b ≠ info.dli_fbase := by
          intro hb; subst hb; omega
        unfold map_insert map_at
        rw [hnone]
        simp only [Bool.false_eq_true, if_false]
        exact lookup_cons_ne _ _ _ _ hb
  · rfl

theorem map_count_of_map_at (m1 m2 : List (Nat × storedBfd)) (b : Nat)
    (h : map_at m1 b = map_at m2 b) : map_count m1 b = map_count m2 b := by
  unfold map_at at h
  unfold map_count
  rw [h]

/-- C4: parse-once invariant of the module symbol cache. From any state in which the
parse count of every base address equals its cache count (0 or 1; in particular from
process start), after every sequence `queries` of `ensure_bfd_loaded` calls the parse
count of every base address still equals its cache count, hence is at most 1; and once
the cache holds an entry for `b`, after any further calls the entry is the same, the
parse count of `b` is exactly 1, and every later call with base `b` returns `true`
leaving the whole state (cache and trace of external calls) unchanged, so it neither
opens nor parses the module. -/
theorem ensure_bfd_loaded_parse_once (env : Env) (st : State)
    (hinv : ∀ b, parse_count b st.trace = map_count st.s_bfds b)
    (queries : List Dl_info) :
    (∀ b, parse_count b (ensure_bfd_loaded_seq env queries st).trace
        = map_count (ensure_bfd_loaded_seq env queries st).s_bfds b) ∧
    (∀ b, parse_count b (ensure_bfd_loaded_seq env queries st).trace ≤ 1) ∧
    (∀ b, map_count st.s_bfds b = 1 →
      map_at (ensure_bfd_loaded_seq env queries st).s_bfds b = map_at st.s_bfds b ∧
      parse_count b (ensure_bfd_loaded_seq env queries st).trace = 1 ∧
      ∀ info : Dl_info, info.dli_fbase = b →
        ensure_bfd_loaded env info (ensure_bfd_loaded_seq env queries st)
          = (true, ensure_bfd_loaded_seq env queries st)) := by
  induction queries generalizing st with
  | nil =>
    refine ⟨hinv, fun b => ?_, fun b hb => ⟨rfl, ?_, fun info hi => ?_⟩⟩
    · rw [ensure_bfd_loaded_seq, hinv]; exact map_count_le_one _ _
    · rw [ensure_bfd_loaded_seq, hinv, hb]
    · subst hi; exact ensure_bfd_loaded_cached env info st hb
  | cons q rest ih =>
    have hstep := ensure_bfd_loaded_parse_inv env q st hinv
    obtain ⟨h1, h2, h3⟩ := ih (ensure_bfd_loaded env q st).2 hstep
    refine ⟨h1, h2, fun b hb => ?_⟩
    have hkeep := ensure_bfd_loaded_keeps env q st b hb
    have hcnt : map_count (ensure_bfd_loaded env q st).2.s_bfds b = 1 := by
      rw [map_count_of_map_at _ _ b hkeep, hb]
    obtain ⟨h4, h5, h6⟩ := h3 b hcnt
    exact ⟨h4.trans hkeep, h5, h6⟩

theorem ensure_bfd_loaded_parse_once_witness :
    (∀ b, parse_count b State.init.trace = map_count State.init.s_bfds b) ∧
      parse_count 1000
        (ensure_bfd_loaded_seq env_demo
          [dladdr_info env_demo 1150, dladdr_info env_demo 1160, dladdr_info env_demo 1170] State.init).trace
        = 1 :=
  ⟨fun _ => rfl,
   ((ensure_bfd_loaded_parse_once env_demo State.init (fun _ => rfl)
      [dladdr_info env_demo 1150, dladdr_info env_demo 1160, dladdr_info env_demo 1170]).1 1000).trans
      (by rfl)⟩

/-! ## `resolve_filename_and_line`: the section walk can loop forever -/

/-- When the first section left in the walk is in range, the nearest-line lookup on it
fails and `dladdr` reported no nearest symbol, the loop of `resolve_filename_and_line`
never leaves that section: it runs out of every amount of fuel. -/
theorem walk_filename_and_line_stuck (env : Env) (info : Dl_info) (currBfd : storedBfd)
    (relative : Bool) (address : Nat) (sec : Section) (rest : List Section)
    (hrange : in_range (candidate_offset address relative currBfd.offset sec) sec = true)
    (hfail : env.bfd_find_nearest_line currBfd.abfd sec
      (candidate_offset address relative currBfd.offset sec) = none)
    (hname : info.dli_sname = none) (fuel : Nat) (st : State) :
    walk_filename_and_line env info currBfd relative address fuel (sec :: rest) st = none := by
  induction fuel generalizing st with
  | zero => rfl
  | succ n ih =>
    simp only [walk_filename_and_line, hrange, hfail, hname, Bool.not_true, Bool.false_eq_true,
      if_false]
    exact ih _

/-- C8 (failing input): in the stripped shared object, for address 1149 the module is
found and loaded, the `.text` section is in range, the nearest-line lookup fails and
there is no nearest symbol; `resolve_filename_and_line` then never returns, whatever the
fuel, while the sibling `resolve_function_name` returns the fallback `" <bfd_error>"`
on the same input. -/
theorem resolve_filename_and_line_diverges :
    (∀ fuel, resolve_filename_and_line env_stripped fuel 1149 State.init = none) ∧
      (resolve_function_name env_stripped 1149 State.init).1 = .ok (some " <bfd_error>") := by
  refine ⟨fun fuel => ?_, by rfl⟩
  have h : resolve_filename_and_line env_stripped fuel 1149 State.init
      = walk_filename_and_line env_stripped stripped_info stripped_stored false 1149 fuel
          [text_section] stripped_loaded_state := by
    rfl
  rw [h]
  exact walk_filename_and_line_stuck env_stripped stripped_info stripped_stored false 1149
    text_section [] (by decide) (by rfl) (by rfl) fuel _

/-! ## `resolve_function_name`: the section walk -/

theorem to_intptr_range (i : Int) :
    -9223372036854775808 ≤ to_intptr i ∧ to_intptr i < 9223372036854775808 := by
  unfold to_intptr
  split <;> omega

theorem candidate_offset_range (address : Nat) (relative : Bool) (load_offset : Int)
    (sec : Section) :
    -9223372036854775808 ≤ candidate_offset address relative load_offset sec ∧
      candidate_offset address relative load_offset sec < 9223372036854775808 :=
  to_intptr_range _

/-- The skip test of the walk, on a pointer-width signed offset: the section is in range
exactly when `0 ≤ offset ≤ size`. -/
theorem in_range_iff (offset : Int) (sec : Section)
    (h : -9223372036854775808 ≤ offset ∧ offset < 9223372036854775808) :
    in_range offset sec = true ↔ 0 ≤ offset ∧ offset ≤ (sec.size : Int) := by
  unfold in_range to_size_t
  simp only [Bool.not_eq_true', Bool.or_eq_false_iff, decide_eq_false_iff_not, not_lt]
  constructor
  · rintro ⟨h1, h2⟩
    refine ⟨h1, ?_⟩
    have : offset % 18446744073709551616 = offset := by omega
    rw [this] at h2
    omega
  · rintro ⟨h1, h2⟩
    refine ⟨h1, ?_⟩
    have : offset % 18446744073709551616 = offset := by omega
    rw [this]
    omega

/-- Sections out of range are skipped without any external call. -/
theorem walk_function_name_skip (env : Env) (info : Dl_info) (currBfd : storedBfd)
    (relative : Bool) (address : Nat) (pre rest : List Section) (st : State)
    (hpre : ∀ s ∈ pre, in_range (candidate_offset address relative currBfd.offset s) s = false) :
    walk_function_name env info currBfd relative address (pre ++ rest) st
      = walk_function_name env info currBfd relative address rest st := by
  induction pre with
  | nil => rfl
  | cons p ps ih =>
    have hp := hpre p (List.mem_cons_self _ _)
    simp only [List.cons_append, walk_function_name, hp, Bool.not_false, if_true]
    exact ih (fun s hs => hpre s (List.mem_cons_of_mem _ hs))

/-- The walk stops at an in-range section whatever follows it. -/
theorem walk_function_name_stop (env : Env) (info : Dl_info) (currBfd : storedBfd)
    (relative : Bool) (address : Nat) (sec : Section) (post : List Section) (st : State)
    (hsec : in_range (candidate_offset address relative currBfd.offset sec) sec = true) :
    walk_function_name env info currBfd relative address (sec :: post) st
      = walk_function_name env info currBfd relative address [sec] st := by
  simp only [walk_function_name, hsec, Bool.not_true, Bool.false_eq_true, if_false]

/-- A list of sections either has no section in range or splits at its first in-range
section. -/
theorem first_in_range_split (p : Section → Bool) (secs : List Section) :
    (∀ s ∈ secs, p s = false) ∨
      ∃ pre sec post, secs = pre ++ sec :: post ∧ (∀ s ∈ pre, p s = false) ∧ p sec = true := by
  induction secs with
  | nil => left; simp
  | cons a rest ih =>
    by_cases ha : p a = true
    · right; exact ⟨[], a, rest, rfl, by simp, ha⟩
    · have ha2 : p a = false := Bool.eq_false_iff.2 ha
      rcases ih with hall | ⟨pre, sec, post, hsplit, hpre, hsec⟩
      · left
        intro s hs
        rcases List.mem_cons.1 hs with h | h
        · rw [h]; exact ha2
        · exact hall s h
      · right
        refine ⟨a :: pre, sec, post, by rw [hsplit]; rfl, ?_, hsec⟩
        intro s hs
        rcases List.mem_cons.1 hs with h | h
        · rw [h]; exact ha2
        · exact hpre s h

theorem append_marker_ne_placeholder (s : String) :
    s ++ " <bfd_error>" ≠ "<not sectioned address>" := by
  intro h
  have h1 := congrArg (fun t : String => t.data.reverse) h
  simp only [String.data_append, List.reverse_append] at h1
  have h2 : " <bfd_error>".data.reverse
      = ['>', 'r', 'o', 'r', 'r', 'e', '_', 'd', 'f', 'b', '<', ' '] := by decide
  have h3 : "<not sectioned address>".data.reverse
      = ['>', 's', 's', 'e', 'r', 'd', 'd', 'a', ' ', 'd', 'e', 'n', 'o', 'i', 't', 'c', 'e',
          's', ' ', 't', 'o', 'n', '<'] := by decide
  rw [h2, h3] at h1
  simp at h1

/-- The walk on a single in-range section: one nearest-line lookup, whose outcome decides
the result. -/
theorem walk_function_name_single (env : Env) (info : Dl_info) (currBfd : storedBfd)
    (relative : Bool) (address : Nat) (sec : Section) (st : State)
    (hsec : in_range (candidate_offset address relative currBfd.offset sec) sec = true) :
    (walk_function_name env info currBfd relative address [sec] st).2
        = st.emit (.bfd_find_nearest_line info.dli_fbase sec
            (candidate_offset address relative currBfd.offset sec)) ∧
    (env.bfd_find_nearest_line currBfd.abfd sec
        (candidate_offset address relative currBfd.offset sec) = none →
      (walk_function_name env info currBfd relative address [sec] st).1
        = .ok (some (demangle_cxa env (match info.dli_sname with
                                        | some sname => sname
                                        | none => "") ++ " <bfd_error>"))) ∧
    (∀ found, env.bfd_find_nearest_line currBfd.abfd sec
        (candidate_offset address relative currBfd.offset sec) = some found →
      (found.func = none →
        (walk_function_name env info currBfd relative address [sec] st).1
          = .error .null_deref) ∧
      (∀ func, found.func = some func →
        (walk_function_name env info currBfd relative address [sec] st).1
          = .ok (if (demangle_cxa env func).isEmpty then none
                 else some (demangle_cxa env func)))) := by
  simp only [walk_function_name, hsec, Bool.not_true, Bool.false_eq_true, if_false]
  refine ⟨?_, ?_, ?_⟩
  · split
    · split <;> rfl
    · rfl
  · intro h
    rw [h]
  · intro found h
    rw [h]
    constructor
    · intro hf
      simp only [hf]
    · intro func hf
      simp only [hf]

/-- C9 (as stated, refuted): in a module whose debug data reports the function name
`<not sectioned address>` (a name the demangler hands back unchanged), address 1149 lies
in the `.text` section (offset 49 of 200), and `resolve_function_name` still returns
`"<not sectioned address>"`: the placeholder does not imply that no section is in range. -/
theorem resolve_function_name_placeholder_in_range :
    text_section ∈ demo_stored.abfd.sections ∧
    candidate_offset 1149 false demo_stored.offset text_section = 49 ∧
    in_range (candidate_offset 1149 false demo_stored.offset text_section) text_section = true ∧
    (resolve_function_name env_placeholder_name 1149 State.init).1
      = .ok (some "<not sectioned address>") ∧
    ¬ ((resolve_function_name env_placeholder_name 1149 State.init).1
          = .ok (some "<not sectioned address>") ↔
        ∀ sec ∈ demo_stored.abfd.sections,
          in_range (candidate_offset 1149 false demo_stored.offset sec) sec = false) := by
  have hmem : text_section ∈ demo_stored.abfd.sections := by decide
  have hin : in_range (candidate_offset 1149 false demo_stored.offset text_section)
      text_section = true := by decide
  have hres : (resolve_function_name env_placeholder_name 1149 State.init).1
      = .ok (some "<not sectioned address>") := by rfl
  refine ⟨hmem, by decide, hin, hres, fun hiff => ?_⟩
  have := hiff.1 hres text_section hmem
  rw [hin] at this
  exact Bool.noConfusion this

/-- C9 (amended): section walk of `resolve_function_name`, first match wins. With
`candidate_offset = address - (relative ? load_offset : 0) - section.vma` computed in
signed pointer-width arithmetic, a section is in range iff
`0 <= candidate_offset <= section.size`. Sections out of range are skipped; the result is
decided by the first in-range section alone: the walk over the whole table equals the walk
over that single section, it performs exactly one nearest-line lookup, on that section,
a failed lookup returns the nearest-symbol fallback with the marker, and a successful one
returns the demangled name (absent if empty) whatever the later sections are. If no
section is in range the result is `"<not sectioned address>"`; conversely, if the result
is that string, then either no section is in range, or the lookup on the first in-range
section succeeded with a function name whose demangled form is that very string. -/
theorem walk_function_name_first_match (env : Env) (info : Dl_info) (currBfd : storedBfd)
    (relative : Bool) (address : Nat) (st : State) :
    (∀ sec, in_range (candidate_offset address relative currBfd.offset sec) sec = true ↔
      0 ≤ candidate_offset address relative currBfd.offset sec ∧
        candidate_offset address relative currBfd.offset sec ≤ (sec.size : Int)) ∧
    (∀ secs,
      (∀ s ∈ secs, in_range (candidate_offset address relative currBfd.offset s) s = false) →
      walk_function_name env info currBfd relative address secs st
        = (.ok (some "<not sectioned address>"), st)) ∧
    (∀ pre sec post,
      (∀ s ∈ pre, in_range (candidate_offset address relative currBfd.offset s) s = false) →
      in_range (candidate_offset address relative currBfd.offset sec) sec = true →
      walk_function_name env info currBfd relative address (pre ++ sec :: post) st
        = walk_function_name env info currBfd relative address [sec] st ∧
      (walk_function_name env info currBfd relative address (pre ++ sec :: post) st).2
        = st.emit (.bfd_find_nearest_line info.dli_fbase sec
            (candidate_offset address relative currBfd.offset sec)) ∧
      (env.bfd_find_nearest_line currBfd.abfd sec
          (candidate_offset address relative currBfd.offset sec) = none →
        (walk_function_name env info currBfd relative address (pre ++ sec :: post) st).1
          = .ok (some (demangle_cxa env (match info.dli_sname with
                                          | some sname => sname
                                          | none => "") ++ " <bfd_error>"))) ∧
      (∀ found func,
        env.bfd_find_nearest_line currBfd.abfd sec
          (candidate_offset address relative currBfd.offset sec) = some found →
        found.func = some func →
        (walk_function_name env info currBfd relative address (pre ++ sec :: post) st).1
          = .ok (if (demangle_cxa env func).isEmpty then none
                 else some (demangle_cxa env func)))) ∧
    (∀ secs st',
      walk_function_name env info currBfd relative address secs st
        = (.ok (some "<not sectioned address>"), st') →
      (∀ s ∈ secs, in_range (candidate_offset address relative currBfd.offset s) s = false) ∨
      ∃ pre sec post found func,
        secs = pre ++ sec :: post ∧
        (∀ s ∈ pre, in_range (candidate_offset address relative currBfd.offset s) s = false) ∧
        in_range (candidate_offset address relative currBfd.offset sec) sec = true ∧
        env.bfd_find_nearest_line currBfd.abfd sec
          (candidate_offset address relative currBfd.offset sec) = some found ∧
        found.func = some func ∧
        demangle_cxa env func = "<not sectioned address>") := by
  have hwalk : ∀ pre sec post,
      (∀ s ∈ pre, in_range (candidate_offset address relative currBfd.offset s) s = false) →
      in_range (candidate_offset address relative currBfd.offset sec) sec = true →
      walk_function_name env info currBfd relative address (pre ++ sec :: post) st
        = walk_function_name env info currBfd relative address [sec] st := by
    intro pre sec post hpre hsec
    rw [walk_function_name_skip env info currBfd relative address pre _ st hpre]
    exact walk_function_name_stop env info currBfd relative address sec post st hsec
  refine ⟨fun sec => in_range_iff _ sec (candidate_offset_range _ _ _ _), ?_, ?_, ?_⟩
  · intro secs hall
    have h := walk_function_name_skip env info currBfd relative address secs [] st hall
    rw [List.append_nil] at h
    rw [h]; rfl
  · intro pre sec post hpre hsec
    have hs := walk_function_name_single env info currBfd relative address sec st hsec
    rw [hwalk pre sec post hpre hsec]
    exact ⟨rfl, hs.1, hs.2.1, fun found func hf hfunc => (hs.2.2 found hf).2 func hfunc⟩
  · intro secs st' hres
    rcases first_in_range_split
      (fun s => in_range (candidate_offset address relative currBfd.offset s) s) secs with
      hall | ⟨pre, sec, post, hsplit, hpre, hsec⟩
    · exact Or.inl hall
    · right
      have hs := walk_function_name_single env info currBfd relative address sec st hsec
      rw [hsplit, hwalk pre sec post hpre hsec] at hres
      have hres1 := congrArg Prod.fst hres
      simp only at hres1
      rcases hlook : env.bfd_find_nearest_line currBfd.abfd sec
        (candidate_offset address relative currBfd.offset sec) with _ | found
      · rw [hs.2.1 hlook] at hres1
        simp only [Except.ok.injEq, Option.some.injEq] at hres1
        exact absurd hres1 (append_marker_ne_placeholder _)
      · rcases hfunc : found.func with _ | func
        · rw [(hs.2.2 found hlook).1 hfunc] at hres1
          simp at hres1
        · rw [(hs.2.2 found hlook).2 func hfunc] at hres1
          refine ⟨pre, sec, post, found, func, hsplit, hpre, hsec, hlook, hfunc, ?_⟩
          simp only [Except.ok.injEq] at hres1
          split at hres1
          · simp at hres1
          · simpa using hres1

theorem walk_function_name_first_match_witness :
    (∀ s ∈ [init_section],
      in_range (candidate_offset 1149 false demo_stored.offset s) s = false) ∧
    in_range (candidate_offset 1149 false demo_stored.offset text_section) text_section = true ∧
    walk_function_name env_demo (dladdr_info env_demo 1149) demo_stored false 1149
        ([init_section] ++ text_section :: [init_section, text_section]) State.init
      = walk_function_name env_demo (dladdr_info env_demo 1149) demo_stored false 1149
        [text_section] State.init :=
  ⟨by decide, by decide,
   ((walk_function_name_first_match env_demo (dladdr_info env_demo 1149) demo_stored false 1149
      State.init).2.2.1 [init_section] text_section [init_section, text_section]
      (by decide) (by decide)).1⟩

/-! ## `get_call_stack` -/

theorem to_int_range (i : Int) : -2147483648 ≤ to_int i ∧ to_int i < 2147483648 := by
  unfold to_int
  split <;> omega

/-- The count the growth loop leaves is an `int` whenever the count it starts from is. -/
theorem grow_stack_range (env : Env) (fuel size : Nat) (num : Int) (stack : Nat → Nat)
    (st : State) (n : Int) (stack' : Nat → Nat) (st' : State)
    (hnum : -2147483648 ≤ num ∧ num < 2147483648)
    (h : grow_stack env fuel size num stack st = some (.ok (n, stack'), st')) :
    -2147483648 ≤ n ∧ n < 2147483648 := by
  induction fuel generalizing size num stack st with
  | zero => simp [grow_stack] at h
  | succ f ih =>
    simp only [grow_stack] at h
    split at h
    · split at h
      · simp at h
      · exact ih _ _ _ _ (to_int_range _) h
    · simp only [Option.some.injEq, Prod.mk.injEq, Except.ok.injEq] at h
      rw [← h.1.1]; exact hnum

/-- The `for` loop: it returns `res` exactly when `res` extends the accumulator by one
entry per index, the `k`-th being the result of `resolve(stack[i+k], stack[i+k-1])` run
in the state left by the previous one. -/
theorem push_frames_iff (env : Env) (fuel : Nat) (stack : Nat → Nat) (m : Nat) :
    ∀ (i : Nat) (acc : List (Option ResolvedFrame)) (s s' : State)
      (res : List (Option ResolvedFrame)),
    push_frames env fuel stack (List.range' i m) acc s = some (.ok res, s') ↔
      ∃ rs : List (Option ResolvedFrame), res = acc ++ rs ∧ rs.length = m ∧
        ∃ ss : Nat → State, ss 0 = s ∧ ss m = s' ∧
          ∀ k, k < m → ∃ r, rs[k]? = some r ∧
            resolve env fuel (stack (i + k)) (stack (i + k - 1)) (ss k)
              = some (.ok r, ss (k + 1)) := by
  induction m with
  | zero =>
    intro i acc s s' res
    simp only [List.range'_zero, push_frames, Option.some.injEq, Prod.mk.injEq,
      Except.ok.injEq]
    constructor
    · rintro ⟨h1, h2⟩
      exact ⟨[], by simp [h1], rfl, fun _ => s, rfl, h2, fun k hk => absurd hk (by omega)⟩
    · rintro ⟨rs, h1, h2, ss, h3, h4, -⟩
      have : rs = [] := List.length_eq_zero.1 h2
      subst this
      exact ⟨by simp [h1], by rw [← h3, h4]⟩
  | succ m ih =>
    intro i acc s s' res
    rw [List.range'_succ]
    simp only [push_frames]
    constructor
    · intro h
      rcases hr : resolve env fuel (stack i) (stack (i - 1)) s with _ | ⟨r0, s1⟩
      · rw [hr] at h; simp at h
      · rcases r0 with e | r
        · rw [hr] at h; simp at h
        · rw [hr] at h
          simp only at h
          obtain ⟨rs, h1, h2, ss, h3, h4, h5⟩ := (ih (i + 1) (acc ++ [r]) s1 s' res).1 h
          refine ⟨r :: rs, by simp [h1], by simp [h2],
            fun k => if k = 0 then s else ss (k - 1), by simp, by simp [h4], ?_⟩
          intro k hk
          rcases k with _ | j
          · refine ⟨r, by simp, ?_⟩
            simp only [Nat.add_zero, if_true, Nat.zero_add, if_neg (Nat.succ_ne_zero 0),
              Nat.sub_self]
            rw [hr, h3]
          · obtain ⟨r', hr1, hr2⟩ := h5 j (by omega)
            refine ⟨r', by simpa using hr1, ?_⟩
            have e1 : i + (j + 1) = i + 1 + j := by omega
            have e2 : j + 1 + 1 - 1 = j + 1 := by omega
            simp only [if_neg (Nat.succ_ne_zero _), Nat.add_sub_cancel, e1, e2]
            exact hr2
    · rintro ⟨rs, h1, h2, ss, h3, h4, h5⟩
      rcases rs with _ | ⟨r, rs'⟩
      · simp at h2
      · obtain ⟨r0, hr0, hres⟩ := h5 0 (by omega)
        simp only [List.getElem?_cons_zero, Option.some.injEq] at hr0
        subst hr0
        simp only [Nat.add_zero, h3, Nat.zero_add] at hres
        rw [hres]
        simp only
        refine (ih (i + 1) (acc ++ [r]) (ss 1) s' res).2
          ⟨rs', by simp [h1], by simpa using h2, fun k => ss (k + 1), rfl, h4, ?_⟩
        intro k hk
        obtain ⟨r', hr1, hr2⟩ := h5 (k + 1) (by omega)
        refine ⟨r', by simpa using hr1, ?_⟩
        have e1 : i + (k + 1) = i + 1 + k := by omega
        rw [e1] at hr2
        exact hr2

theorem to_size_t_of_nonneg (n : Int) (h0 : 0 ≤ n) (h1 : n < 2147483648) :
    to_size_t n = n.toNat := by
  unfold to_size_t
  have : n % 18446744073709551616 = n := by omega
  rw [this]

/-- When the loop condition fails at once, the growth loop returns the count it was given. -/
theorem grow_stack_exit (env : Env) (fuel size : Nat) (num : Int) (stack : Nat → Nat)
    (st : State) (n : Int) (stack' : Nat → Nat) (st' : State)
    (hne : to_size_t num ≠ size)
    (h : grow_stack env fuel size num stack st = some (.ok (n, stack'), st')) :
    n = num := by
  cases fuel with
  | zero => simp [grow_stack] at h
  | succ f =>
    simp only [grow_stack, if_neg hne, Option.some.injEq, Prod.mk.injEq, Except.ok.injEq] at h
    exact h.1.1.symm

/-- A positive final count forces a positive first count. -/
theorem first_count_pos (env : Env) (fuel : Nat) (st : State) (n : Int) (stack : Nat → Nat)
    (st1 : State) (hrep : final_report env fuel st = some (.ok (n, stack), st1))
    (hn : 1 ≤ n) : 0 < to_int (env.backtrace 1000).1 := by
  by_contra hle
  have hr := to_int_range (env.backtrace 1000).1
  have hne : to_size_t (to_int (env.backtrace 1000).1) ≠ 1000 := by
    unfold to_size_t
    omega
  have := grow_stack_exit env fuel 1000 _ _ _ n stack st1 hne hrep
  omega

/-- The returns of `get_call_stack` in terms of `resolve`: for every unwinder outcome
whose final reported frame count (the one left after the growth retries) is `n >= 1`, with raw frames `stack 0 .. stack (n-1)` innermost first,
`get_call_stack` returns the sequence `res` exactly when `res` has `n-1` entries and its
`k`-th entry (`k = 0 .. n-2`) is the result of `resolve(stack (k+1), stack k)`, the calls
being made in that order, each in the state left by the previous one: frame 0 is never
resolved as a callee, no other frame is dropped and the order is preserved. -/
theorem get_call_stack_returns_iff (env : Env) (fuel : Nat) (st : State) (n : Int)
    (stack : Nat → Nat) (st1 : State)
    (hrep : final_report env fuel st = some (.ok (n, stack), st1)) (hn : 1 ≤ n)
    (res : List (Option ResolvedFrame)) (st' : State) :
    get_call_stack env fuel st = some (.ok res, st') ↔
      ((res.length : Int) = n - 1 ∧
        ∃ ss : Nat → State, ss 0 = st1 ∧ ss res.length = st' ∧
          ∀ k, k < res.length → ∃ r, res[k]? = some r ∧
            resolve env fuel (stack (k + 1)) (stack k) (ss k) = some (.ok r, ss (k + 1))) := by
  have hpos := first_count_pos env fuel st n stack st1 hrep hn
  have hrange := grow_stack_range env fuel 1000 _ _ _ n stack st1 (to_int_range _) hrep
  have hsz : to_size_t n = n.toNat := to_size_t_of_nonneg n (by omega) hrange.2
  unfold final_report at hrep
  unfold get_call_stack
  simp only [if_neg (not_le.2 hpos), hrep]
  have hmax : ¬ to_size_t n > vector_max_size := by
    rw [hsz]; unfold vector_max_size; omega
  rw [if_neg hmax, push_frames_iff, hsz]
  constructor
  · rintro ⟨rs, h1, h2, ss, h3, h4, h5⟩
    simp only [List.nil_append] at h1
    subst h1
    refine ⟨by omega, ss, h3, by rw [h2]; exact h4, fun k hk => ?_⟩
    obtain ⟨r, hr1, hr2⟩ := h5 k (by omega)
    refine ⟨r, hr1, ?_⟩
    have e1 : 1 + k = k + 1 := by omega
    have e2 : k + 1 - 1 = k := by omega
    rw [e1, e2] at hr2
    exact hr2
  · rintro ⟨h1, ss, h3, h4, h5⟩
    have hlen : res.length = n.toNat - 1 := by omega
    refine ⟨res, by simp, hlen, ss, h3, by rw [← hlen]; exact h4, fun k hk => ?_⟩
    obtain ⟨r, hr1, hr2⟩ := h5 k (by omega)
    refine ⟨r, hr1, ?_⟩
    have e1 : 1 + k = k + 1 := by omega
    have e2 : k + 1 - 1 = k := by omega
    rw [e1, e2]
    exact hr2

theorem get_call_stack_returns_iff_witness :
    final_report env_demo 5 State.init
      = some (.ok (3, fun i => 1100 + 10 * i), State.mk [] false [.backtrace 1000]) ∧
    get_call_stack env_demo 5 State.init = some (.ok demo_call_stack, demo_call_stack_state) ∧
    ((demo_call_stack.length : Int) = 3 - 1 ∧
      ∃ ss : Nat → State, ss 0 = State.mk [] false [.backtrace 1000] ∧
        ss demo_call_stack.length = demo_call_stack_state ∧
        ∀ k, k < demo_call_stack.length → ∃ r, demo_call_stack[k]? = some r ∧
          resolve env_demo 5 (1100 + 10 * (k + 1)) (1100 + 10 * k) (ss k)
            = some (.ok r, ss (k + 1))) :=
  ⟨by rfl, by rfl,
   (get_call_stack_returns_iff env_demo 5 State.init 3 (fun i => 1100 + 10 * i)
      (State.mk [] false [.backtrace 1000]) (by rfl) (by decide) demo_call_stack
      demo_call_stack_state).1 (by rfl)⟩

/-- C2 (as stated, refuted): the unwinder fills the initial buffer (count 1000 at
capacity 1000) and reports zero frames on the retry with capacity 2000. The count left
after the growth retries is 0, yet `get_call_stack` does not fail: it returns the empty
sequence. -/
theorem get_call_stack_zero_after_growth :
    to_int (env_growth_zero.backtrace 1000).1 = 1000 ∧
    to_int (env_growth_zero.backtrace 2000).1 = 0 ∧
    (∃ stack, final_report env_growth_zero 2 State.init
      = some (.ok (0, stack), State.mk [] false [.backtrace 1000, .backtrace 2000])) ∧
    get_call_stack env_growth_zero 2 State.init
      = some (.ok [], State.mk [] false [.backtrace 1000, .backtrace 2000]) :=
  ⟨by decide, by decide, ⟨fun i => i, by rfl⟩, by rfl⟩

/-- C2 (amended): `get_call_stack` fails with the capture error whenever the frame count
reported by the first unwinder call (capacity 1000, before any growth retry) is zero or
negative; no sequence is returned and the only external call made is that `backtrace`, so
no frame is resolved. It returns a sequence only when that first count is positive, and
then the count left after the growth retries is not negative. -/
theorem get_call_stack_capture_error (env : Env) (st : State) :
    (to_int (env.backtrace 1000).1 ≤ 0 →
      ∀ fuel, get_call_stack env fuel st
        = some (.error (.runtime_error "Callstack could not be built"),
            st.emit (.backtrace 1000))) ∧
    (∀ fuel res st', get_call_stack env fuel st = some (.ok res, st') →
      0 < to_int (env.backtrace 1000).1 ∧
      ∃ n stack st1, final_report env fuel st = some (.ok (n, stack), st1) ∧ 0 ≤ n) := by
  constructor
  · intro h fuel
    unfold get_call_stack
    simp only [if_pos h]
  · intro fuel res st' h
    unfold get_call_stack at h
    simp only at h
    split at h
    · simp at h
    · rename_i hpos
      refine ⟨by omega, ?_⟩
      unfold final_report
      rcases hg : grow_stack env fuel 1000 (to_int (env.backtrace 1000).1)
        (env.backtrace 1000).2 (st.emit (.backtrace 1000)) with _ | ⟨r, s2⟩
      · rw [hg] at h; simp at h
      · rcases r with e | ⟨n, stack⟩
        · rw [hg] at h; simp at h
        · rw [hg] at h
          simp only at h
          refine ⟨n, stack, s2, rfl, ?_⟩
          have hrange := grow_stack_range env fuel 1000 _ _ _ n stack s2 (to_int_range _) hg
          split at h
          · simp at h
          · rename_i hmax
            by_contra hneg
            apply hmax
            unfold to_size_t vector_max_size
            omega

theorem get_call_stack_capture_error_witness :
    to_int (env_no_frames.backtrace 1000).1 ≤ 0 ∧
      get_call_stack env_no_frames 7 State.init
        = some (.error (.runtime_error "Callstack could not be built"),
            State.mk [] false [.backtrace 1000]) :=
  ⟨by decide, (get_call_stack_capture_error env_no_frames State.init).1 (by decide) 7⟩

/-! ## Termination -/

/-- The growth loop cannot go on: the count is an `int`, so it stops matching the buffer
size once the size has passed `2^31`. -/
theorem grow_stack_returns (env : Env) (fuel : Nat) :
    ∀ (size : Nat) (num : Int) (stack : Nat → Nat) (st : State),
      1 ≤ fuel → size < 8589934592 → 2147483648 ≤ size * 2 ^ (fuel - 1) →
      -2147483648 ≤ num ∧ num < 2147483648 →
      (grow_stack env fuel size num stack st).isSome = true := by
  induction fuel with
  | zero => intro _ _ _ _ h; omega
  | succ f ih =>
    intro size num stack st _ hsize hpow hnum
    simp only [grow_stack]
    split
    · rename_i hcond
      have hlt : size < 2147483648 := by
        unfold to_size_t at hcond
        omega
      have hf : 1 ≤ f := by
        rcases f with _ | g
        · simp at hpow; omega
        · omega
      have hmod : size * 2 % 18446744073709551616 = size * 2 := by omega
      rw [hmod]
      have hmax : ¬ size * 2 > vector_max_size := by unfold vector_max_size; omega
      rw [if_neg hmax]
      refine ih _ _ _ _ hf (by omega) ?_ (to_int_range _)
      have hp : 2 ^ (f + 1 - 1) = 2 * 2 ^ (f - 1) := by
        rw [Nat.add_sub_cancel, ← Nat.pow_succ', Nat.succ_eq_add_one, Nat.sub_add_cancel hf]
      rw [hp] at hpow
      calc 2147483648 ≤ size * (2 * 2 ^ (f - 1)) := hpow
        _ = size * 2 * 2 ^ (f - 1) := by rw [Nat.mul_assoc]
    · rfl

/-- Step 1 of the capture always returns, given fuel for 23 loop tests. -/
theorem final_report_returns (env : Env) (fuel : Nat) (st : State) (hfuel : 23 ≤ fuel) :
    (final_report env fuel st).isSome = true := by
  unfold final_report
  refine grow_stack_returns env fuel 1000 _ _ _ (by omega) (by omega) ?_ (to_int_range _)
  have h1 : 2 ^ 22 ≤ 2 ^ (fuel - 1) := Nat.pow_le_pow_right (by omega) (by omega)
  have h2 : (2 : Nat) ^ 22 = 4194304 := by norm_num
  omega

/-- The walk of `resolve_filename_and_line` returns when `dladdr` reported a nearest
symbol: every iteration then either returns or moves to the next section. -/
theorem walk_filename_and_line_returns (env : Env) (info : Dl_info) (currBfd : storedBfd)
    (relative : Bool) (address : Nat) (sname : String) (hname : info.dli_sname = some sname)
    (secs : List Section) :
    ∀ (fuel : Nat) (st : State), secs.length < fuel →
      (walk_filename_and_line env info currBfd relative address fuel secs st).isSome = true := by
  induction secs with
  | nil =>
    intro fuel st hf
    rcases fuel with _ | f
    · omega
    · rfl
  | cons sec rest ih =>
    intro fuel st hf
    rcases fuel with _ | f
    · omega
    · simp only [walk_filename_and_line]
      split
      · exact ih f st (by simpa using hf)
      · split
        · split
          · rfl
          · split <;> rfl
        · rw [hname]; rfl

/-- After the early returns, `resolve_function_name` is the section walk over the cached
section table of the module. -/
theorem resolve_function_name_walk (env : Env) (address : Nat) (st st2 : State)
    (currBfd : storedBfd) (first : Section) (rest : List Section)
    (hmod : (dladdr_info env address).dli_fbase ≠ 0)
    (hnamed : env.LOG_NOT_DEMANGLED = true ∨ (dladdr_info env address).dli_sname ≠ none)
    (hload : ensure_bfd_loaded env (dladdr_info env address) (st.emit (.dladdr address))
      = (true, st2))
    (hat : map_at st2.s_bfds (dladdr_info env address).dli_fbase = some currBfd)
    (hsecs : currBfd.abfd.sections = first :: rest) :
    resolve_function_name env address st
      = walk_function_name env (dladdr_info env address) currBfd
          (decide (first.vma < to_size_t currBfd.offset)) address (first :: rest) st2 := by
  unfold resolve_function_name
  simp only [if_neg hmod]
  have hskip : ¬ ((!env.LOG_NOT_DEMANGLED && (dladdr_info env address).dli_sname.isNone) = true) := by
    rcases hnamed with h | h
    · simp [h]
    · rcases hs : (dladdr_info env address).dli_sname with _ | x
      · exact absurd hs h
      · simp
  rw [if_neg hskip, hload]
  simp only [hat, hsecs]

/-! ## The hang of `resolve_filename_and_line` reaches `resolve` and `get_call_stack` -/

/-- After the early returns, `resolve_filename_and_line` is the section walk over the
cached section table of the module. -/
theorem resolve_filename_and_line_walk (env : Env) (fuel address : Nat) (st st2 : State)
    (currBfd : storedBfd) (first : Section) (rest : List Section)
    (hmod : (dladdr_info env address).dli_fbase ≠ 0)
    (hload : ensure_bfd_loaded env (dladdr_info env address) (st.emit (.dladdr address))
      = (true, st2))
    (hat : map_at st2.s_bfds (dladdr_info env address).dli_fbase = some currBfd)
    (hsecs : currBfd.abfd.sections = first :: rest) :
    resolve_filename_and_line env fuel address st
      = walk_filename_and_line env (dladdr_info env address) currBfd
          (decide (first.vma < to_size_t currBfd.offset)) address fuel (first :: rest) st2 := by
  unfold resolve_filename_and_line
  simp only [if_neg hmod]
  rw [hload]
  simp only [hat, hsecs]

/-- When the function name is present and the filename/line resolution does not return,
`resolve` does not return. -/
theorem resolve_hangs (env : Env) (fuel callee caller : Nat) (st : State) (name : String)
    (hname : (resolve_function_name env callee (check_bfd_initialized st)).1
      = .ok (some name))
    (hfile : resolve_filename_and_line env fuel (env.unwind_nth_frame caller 6)
      ((resolve_function_name env callee (check_bfd_initialized st)).2.emit
        (.unwind_nth_frame caller 6)) = none) :
    resolve env fuel callee caller st = none := by
  unfold resolve
  simp only
  rcases hr : resolve_function_name env callee (check_bfd_initialized st) with ⟨r, s1⟩
  rw [hr] at hname hfile
  simp only at hname hfile
  subst hname
  simp only [hfile]

/-- C6 (failing input): in the stripped shared object, `resolve_function_name(1150)`
returns the present name `" <bfd_error>"`, so the claim promises a present frame; the
derived caller address 1159 lies in `.text`, the nearest-line lookup fails and there is
no nearest symbol, so `resolve_filename_and_line` never returns and neither does
`resolve(1150, 1160)`, whatever the fuel. -/
theorem resolve_never_returns :
    (resolve_function_name env_stripped 1150 (check_bfd_initialized State.init)).1
      = .ok (some " <bfd_error>") ∧
    env_stripped.unwind_nth_frame 1160 6 = 1159 ∧
    ∀ fuel, resolve env_stripped fuel 1150 1160 State.init = none := by
  refine ⟨by rfl, by rfl, fun fuel => ?_⟩
  refine resolve_hangs env_stripped fuel 1150 1160 State.init " <bfd_error>" (by rfl) ?_
  rw [resolve_filename_and_line_walk env_stripped fuel _ _ _ stripped_stored text_section []
    (by decide) (by rfl) (by rfl) (by rfl)]
  exact walk_filename_and_line_stuck env_stripped _ stripped_stored _ _ text_section []
    (by decide) (by rfl) (by rfl) fuel _

/-- C1 (failing input): in the stripped shared object the unwinder reports a final count
of 3 frames (1100, 1110, 1120), so the claim promises a sequence of 2 entries. The first
pair resolves, but for the second pair the derived caller address 1109 lies in `.text`,
the nearest-line lookup fails and there is no nearest symbol: `resolve(1120, 1110)`
never returns, and `get_call_stack` returns nothing, whatever the fuel. -/
theorem get_call_stack_never_returns :
    (∃ st1, final_report env_stripped 1 State.init
      = some (.ok (3, fun i => 1100 + 10 * i), st1)) ∧
    resolve env_stripped 2 1110 1100 (State.mk [] false [.backtrace 1000])
      = some (.ok (some stripped_first_frame), stripped_first_state) ∧
    (∀ fuel, resolve env_stripped fuel 1120 1110 stripped_first_state = none) ∧
    ∀ fuel, get_call_stack env_stripped fuel State.init = none := by
  have hsecond : ∀ fuel, resolve env_stripped fuel 1120 1110 stripped_first_state = none := by
    intro fuel
    refine resolve_hangs env_stripped fuel 1120 1110 stripped_first_state " <bfd_error>"
      (by rfl) ?_
    rw [resolve_filename_and_line_walk env_stripped fuel _ _ _ stripped_stored text_section []
      (by decide) (by rfl) (by rfl) (by rfl)]
    exact walk_filename_and_line_stuck env_stripped _ stripped_stored _ _ text_section []
      (by decide) (by rfl) (by rfl) fuel _
  refine ⟨⟨_, by rfl⟩, by rfl, hsecond, fun fuel => ?_⟩
  rcases fuel with _ | _ | g
  · rfl
  · rfl
  · have hfirst : get_call_stack env_stripped (g + 2) State.init
        = push_frames env_stripped (g + 2) (fun i => 1100 + 10 * i) [2]
            [some stripped_first_frame] stripped_first_state := by
      rfl
    rw [hfirst]
    simp only [push_frames, hsecond]

end instrumentation
